import Mathlib

/-!
Verification of the `nepalgeohelper` package (Nepal geographic data helper).

This file shallowly embeds the search, scoring, data-loading and validation
logic of the package (`lib/district-utils.js` / `NepalGeoData`,
`lib/geo-search.js` / `GeoSearch`, `lib/location-validator.js` /
`LocationValidator`) and proves properties of the embedded code.

JavaScript strings are modelled as `List Char` (written `Str` below),
JavaScript numbers as `ℚ` (all numbers appearing in the modelled code are
exact small rationals, so `ℚ` matches the float semantics on every value
that actually occurs), and JavaScript's `Math.round` as `jsRound`
(round half toward positive infinity).
-/

/-- JavaScript strings are modelled as lists of characters. -/
abbrev Str := List Char

/-- Characters treated as whitespace by JavaScript's `trim` /
the `\s` regex class (the ASCII ones, which are the only ones relevant
to the embedded data). -/
def jsWhitespaceChar (c : Char) : Bool :=
  c = ' ' || c = '\t' || c = '\n' || c = '\r'

/-- `String.prototype.toLowerCase` (ASCII behaviour, via `Char.toLower`). -/
def jsToLower (s : Str) : Str := s.map Char.toLower

/-- `String.prototype.trim`: strip leading and trailing whitespace. -/
def jsTrim (s : Str) : Str :=
  ((s.dropWhile (fun c => jsWhitespaceChar c)).reverse.dropWhile
    (fun c => jsWhitespaceChar c)).reverse

/-- `String.prototype.split(' ')`: split on single space characters.
`"".split(' ')` is `[""]`, and consecutive separators yield empty pieces,
exactly as in JavaScript. -/
def jsSplitOnSpace : Str → List Str
  | [] => [[]]
  | c :: rest =>
    if c = ' ' then [] :: jsSplitOnSpace rest
    else
      match jsSplitOnSpace rest with
      | t :: ts => (c :: t) :: ts
      | [] => [[c]]

/-- `text.split(/[\s-]/)`: split on whitespace or hyphen characters. -/
def jsSplitOnWsHyphen : Str → List Str
  | [] => [[]]
  | c :: rest =>
    if jsWhitespaceChar c || c = '-' then [] :: jsSplitOnWsHyphen rest
    else
      match jsSplitOnWsHyphen rest with
      | t :: ts => (c :: t) :: ts
      | [] => [[c]]

/-- JavaScript's `Math.round`: round half toward positive infinity. -/
def jsRound (q : ℚ) : ℤ := ⌊q + 1/2⌋

namespace NepalGeoData

/-- `NepalGeoData.levenshteinDistance` (`lib/district-utils.js`): classic
edit distance.  The source fills a DP matrix with
`matrix[i][0] = i`, `matrix[0][j] = j` and
`matrix[i][j] = if chars equal then diag else 1 + min(diag, left, up)`;
here the same recurrence is expressed as a structural recursion on the
two strings (identical base cases and step). -/
def levenshteinDistance : Str → Str → ℕ
  | [], str2 => str2.length
  | c :: str1, [] => (c :: str1).length
  | c1 :: str1, c2 :: str2 =>
    if c1 = c2 then levenshteinDistance str1 str2
    else 1 + min (levenshteinDistance str1 str2)
          (min (levenshteinDistance (c1 :: str1) str2)
               (levenshteinDistance str1 (c2 :: str2)))
termination_by s t => s.length + t.length
decreasing_by all_goals simp_arith

end NepalGeoData

namespace LocationValidator

/-- `LocationValidator.calculateSimilarity` (`lib/location-validator.js`):
normalized Levenshtein similarity.  The source computes the same DP
matrix inline (same recurrence as `NepalGeoData.levenshteinDistance`) and
returns `maxLength === 0 ? 1 : (maxLength - matrix[len2][len1]) / maxLength`. -/
def calculateSimilarity (str1 str2 : Str) : ℚ :=
  let maxLength := max str1.length str2.length
  if maxLength = 0 then 1
  else ((maxLength : ℚ) - NepalGeoData.levenshteinDistance str1 str2) / maxLength

end LocationValidator

namespace NepalGeoData

/-- The fixed abbreviation table of `NepalGeoData.calculateFuzzyScore`. -/
def abbreviations : List (Str × Str) :=
  [("ktm".data, "kathmandu".data),
   ("pok".data, "pokhara".data),
   ("pokhra".data, "pokhara".data),
   ("lalitpurr".data, "lalitpur".data),
   ("bhkt".data, "bhaktapur".data),
   ("bkt".data, "bhaktapur".data),
   ("chitawan".data, "chitwan".data),
   ("chit".data, "chitwan".data)]

/-- `abbreviations[query] && text.includes(abbreviations[query])`:
the query is a known abbreviation whose expansion occurs in the text. -/
def abbrevHit (text query : Str) : Bool :=
  match abbreviations.lookup query with
  | some full => decide (full <:+: text)
  | none => false

/-- The loop over `Object.entries(abbreviations)`: the query equals a mapped
full name and the text contains the corresponding abbreviation. -/
def reverseAbbrevHit (text query : Str) : Bool :=
  abbreviations.any (fun p => query == p.2 && decide (p.1 <:+: text))

/-- The acronym branch of `calculateFuzzyScore`: for a query of length 2–4,
split the text on whitespace/hyphen and compare the query with the first
letters of the first `query.length` words (`charAt(0)` of an empty word is
the empty string and contributes nothing, hence `filterMap List.head?`). -/
def acronymHit (text query : Str) : Bool :=
  if 2 ≤ query.length ∧ query.length ≤ 4 then
    let words := jsSplitOnWsHyphen text
    if query.length ≤ words.length then
      decide ((words.take query.length).filterMap List.head? = query)
    else false
  else false

/-- `NepalGeoData.calculateFuzzyScore` (`lib/district-utils.js`):
abbreviation hit → 75; reverse abbreviation hit → 75; acronym hit → 70;
otherwise Levenshtein similarity `1 - d/maxLength`, scoring
`Math.round(similarity * 50)` when `similarity > 0.6`, else 0.
When both strings are empty, the source computes `0/0 = NaN` and
`NaN > 0.6` is false, so that case yields 0 (the explicit
`maxLength = 0` guard below). -/
def calculateFuzzyScore (text query : Str) : ℤ :=
  if abbrevHit text query then 75
  else if reverseAbbrevHit text query then 75
  else if acronymHit text query then 70
  else
    let distance := levenshteinDistance text query
    let maxLength := max text.length query.length
    if maxLength = 0 then 0
    else
      let similarity : ℚ := 1 - (distance : ℚ) / (maxLength : ℚ)
      if 3/5 < similarity then jsRound (similarity * 50) else 0

/-- `NepalGeoData.calculateRelevance` (`lib/district-utils.js`): the scoring
cascade.  Exact match → 100; text starts with query → 80; text contains
query → 60; positive fuzzy score → that score; otherwise +20 for every
space-separated query token contained in the text. -/
def calculateRelevance (text query : Str) : ℤ :=
  let normalizedText := jsToLower text
  let normalizedQuery := jsToLower query
  if normalizedText = normalizedQuery then 100
  else if normalizedQuery <+: normalizedText then 80
  else if normalizedQuery <:+: normalizedText then 60
  else
    let fuzzyScore := calculateFuzzyScore normalizedText normalizedQuery
    if 0 < fuzzyScore then fuzzyScore
    else 20 * (((jsSplitOnSpace normalizedQuery).filter
        (fun word => decide (word <:+: normalizedText))).length : ℤ)

end NepalGeoData

/-- One raw record of the postal data source
(`this.data.postal_data` entries in `lib/geo-data.js`): the four columns
`District`, `Post Office`, `Postal/Pin Code`, `Post Office Type`. -/
structure RawEntry where
  district : Str
  postOffice : Str
  postalCode : Str
  postOfficeType : Str
deriving DecidableEq

/-- A stored post-office record as built by `NepalGeoData.processData`
(the source's `type` field is called `poType` here). -/
structure PostOffice where
  name : Str
  postalCode : Str
  poType : Str
  district : Str
deriving DecidableEq

/-- A stored district aggregate as built by `NepalGeoData.processData`. -/
structure District where
  name : Str
  postOfficeCount : ℕ
  postOffices : List PostOffice
deriving DecidableEq

/-- The Dataset Store: `this.districts` (a string-keyed object, modelled as
its list of values in key-insertion order, which is how `Object.values`
enumerates it) and `this.postOffices`. -/
structure GeoDataset where
  districts : List District
  postOffices : List PostOffice
deriving DecidableEq

namespace NepalGeoData

/-- The fixed district-name correction table of
`NepalGeoData.normalizeDistrictName`. -/
def corrections : List (Str × Str) :=
  [("Chitawan".data, "Chitwan".data),
   ("Kaverpalanchok".data, "Kavrepalanchok".data),
   ("Makabanpur".data, "Makawanpur".data),
   ("Taplajung".data, "Taplejung".data),
   ("Kailal".data, "Kailali".data),
   ("Syanja".data, "Syangja".data)]

/-- `NepalGeoData.normalizeDistrictName`: trim, then apply the correction
table (`corrections[normalized] || normalized`). -/
def normalizeDistrictName (district : Str) : Str :=
  let normalized := jsTrim district
  (corrections.lookup normalized).getD normalized

/-- The post-office object built for one raw entry inside `processData`. -/
def mkPostOffice (e : RawEntry) : PostOffice :=
  { name := e.postOffice
    postalCode := e.postalCode
    poType := e.postOfficeType
    district := normalizeDistrictName e.district }

/-- One iteration of the `forEach` loop in `NepalGeoData.processData`:
push the post office, create the district group if absent, then increment
its count and append the post office (the source initialises a fresh group
with count 0 / empty list and then unconditionally increments and pushes,
which is the same thing). -/
def addEntry (acc : GeoDataset) (e : RawEntry) : GeoDataset :=
  let district := normalizeDistrictName e.district
  let po := mkPostOffice e
  let districts :=
    if acc.districts.any (fun d => d.name == district) then
      acc.districts.map (fun d =>
        if d.name = district then
          { d with postOfficeCount := d.postOfficeCount + 1,
                   postOffices := d.postOffices ++ [po] }
        else d)
    else
      acc.districts ++ [{ name := district, postOfficeCount := 1, postOffices := [po] }]
  { districts := districts, postOffices := acc.postOffices ++ [po] }

/-- `NepalGeoData.processData`: group the raw records into the Dataset
Store. -/
def processData (entries : List RawEntry) : GeoDataset :=
  entries.foldl addEntry ⟨[], []⟩

/-- `NepalGeoData.getAllDistricts`: `Object.values(this.districts)`. -/
def getAllDistricts (ds : GeoDataset) : List District := ds.districts

/-- `NepalGeoData.getAllPostOffices`. -/
def getAllPostOffices (ds : GeoDataset) : List PostOffice := ds.postOffices

/-- `NepalGeoData.getPostOfficeByCode`: `find` returns the first match. -/
def getPostOfficeByCode (ds : GeoDataset) (postalCode : Str) : Option PostOffice :=
  ds.postOffices.find? (fun po => po.postalCode == postalCode)

/-- `NepalGeoData.getDistrictByName`: case-insensitive key lookup. -/
def getDistrictByName (ds : GeoDataset) (name : Str) : Option District :=
  let normalizedName := jsTrim (jsToLower name)
  ds.districts.find? (fun d => jsToLower d.name == normalizedName)

end NepalGeoData

/-- A search result object.  `NepalGeoData.search` produces results without
a `matchType` field (`none` here); `GeoSearch` attaches one.  The source's
`type` field ("district" / "postOffice") is called `rtype` here, and the
optional `district` / `postalCode` fields (absent on district results) are
`Option`s. -/
structure SearchResult where
  rtype : String
  name : Str
  district : Option Str
  postalCode : Option Str
  relevance : ℤ
  matchType : Option String
deriving DecidableEq

/-- Insert `x` into an already ranked list, before the first element whose
key is strictly smaller (so that, among equal keys, earlier-inserted
elements stay first). -/
def insertRanked {α : Type} {K : Type} [LinearOrder K] (key : α → K) (x : α) :
    List α → List α
  | [] => [x]
  | y :: ys => if key y < key x then x :: y :: ys else y :: insertRanked key x ys

/-- `Array.prototype.sort` with a comparator `(a, b) => keyOf(b) - keyOf(a)`
(descending by key): a stable sort, modelled as left-to-right insertion.
JavaScript's sort is stable (ES2019), and for a consistent comparator it
produces exactly this: descending by key, equal keys in original order. -/
def jsStableSortDesc {α : Type} {K : Type} [LinearOrder K] (key : α → K)
    (l : List α) : List α :=
  l.foldl (fun acc x => insertRanked key x acc) []

namespace NepalGeoData

/-- `NepalGeoData.search` (`lib/district-utils.js`): score districts and/or
post offices against the normalized query, keep scores `> 0` while
collecting, filter at `> 20`, and sort by relevance descending. -/
def search (ds : GeoDataset) (query : Str) (stype : String) : List SearchResult :=
  let normalizedQuery := jsTrim (jsToLower query)
  let districtResults : List SearchResult :=
    if stype = "all" ∨ stype = "district" then
      ds.districts.filterMap (fun district =>
        let relevance := calculateRelevance district.name normalizedQuery
        if 0 < relevance then
          some { rtype := "district", name := district.name, district := none,
                 postalCode := none, relevance := relevance, matchType := none }
        else none)
    else []
  let postOfficeResults : List SearchResult :=
    if stype = "all" ∨ stype = "postOffice" then
      ds.postOffices.filterMap (fun po =>
        let nameRelevance := calculateRelevance po.name normalizedQuery
        let postalRelevance : ℤ := if query <:+: po.postalCode then 90 else 0
        let maxRelevance := max nameRelevance postalRelevance
        if 0 < maxRelevance then
          some { rtype := "postOffice", name := po.name, district := some po.district,
                 postalCode := some po.postalCode, relevance := maxRelevance,
                 matchType := none }
        else none)
    else []
  jsStableSortDesc (fun r => r.relevance)
    ((districtResults ++ postOfficeResults).filter (fun r => 20 < r.relevance))

end NepalGeoData

namespace GeoSearch

/-- The `result.postalCode && result.postalCode.includes(query)` test of
`GeoSearch.determineMatchType` (an empty postal-code string is falsy). -/
def postalCodeContains (query : Str) (result : SearchResult) : Bool :=
  match result.postalCode with
  | some pc => !(pc == []) && decide (query <:+: pc)
  | none => false

/-- `GeoSearch.determineMatchType` (`lib/geo-search.js`). -/
def determineMatchType (query : Str) (result : SearchResult) : String :=
  let normalizedQuery := jsToLower query
  let normalizedName := jsToLower result.name
  if normalizedName = normalizedQuery then "exact"
  else if normalizedQuery <+: normalizedName then "prefix"
  else if normalizedQuery <:+: normalizedName then "contains"
  else if postalCodeContains query result then "postal_code"
  else "fuzzy"

/-- The `matchTypePriority` table of `GeoSearch.sortResults` with the
`|| 0` default for absent or unknown match types. -/
def matchTypePriority (mt : Option String) : ℤ :=
  match mt with
  | some s =>
    (([("exact", 5), ("exact_postal", 5), ("prefix", 4), ("contains", 3),
       ("postal_code", 2), ("fuzzy", 1), ("advanced_search", 1)] :
      List (String × ℤ)).lookup s).getD 0
  | none => 0

/-- The sort key of the default (`'relevance'`) branch of
`GeoSearch.sortResults`: matchType priority first, then numeric
relevance. -/
def sortKey (r : SearchResult) : ℤ ×ₗ ℤ := toLex (matchTypePriority r.matchType, r.relevance)

/-- `GeoSearch.sortResults` with the default `sortBy = 'relevance'`. -/
def sortResults (results : List SearchResult) : List SearchResult :=
  jsStableSortDesc sortKey results

/-- The composite deduplication key
`` `${type}-${name}-${district || ''}-${postalCode || ''}` `` of
`GeoSearch.removeDuplicates`. -/
def dedupKey (r : SearchResult) : Str :=
  r.rtype.data ++ "-".data ++ r.name ++ "-".data ++ (r.district.getD []) ++
    "-".data ++ (r.postalCode.getD [])

/-- The `filter`-with-`seen`-set loop of `GeoSearch.removeDuplicates`:
first occurrence of each key wins. -/
def removeDuplicatesAux (seen : List Str) : List SearchResult → List SearchResult
  | [] => []
  | r :: rest =>
    if dedupKey r ∈ seen then removeDuplicatesAux seen rest
    else r :: removeDuplicatesAux (dedupKey r :: seen) rest

/-- `GeoSearch.removeDuplicates`. -/
def removeDuplicates (results : List SearchResult) : List SearchResult :=
  removeDuplicatesAux [] results

/-- `GeoSearch.searchByQuery` (`lib/geo-search.js`), for a (string) query
that passed the falsy/type guard.  `limit` and `minRelevance` are the
caller options (defaults 10 and 0.3); the defaults `includeType = 'all'`
and `sortBy = 'relevance'` are baked in.  A query whose trimmed form is
exactly 5 ASCII digits first contributes an `exact_postal` result with
relevance 100 when the postal code exists. -/
def searchByQuery (ds : GeoDataset) (query : Str) (limit : ℕ)
    (minRelevance : ℚ) : List SearchResult :=
  let postal : List SearchResult :=
    if (jsTrim query).length = 5 ∧ (jsTrim query).all Char.isDigit then
      match NepalGeoData.getPostOfficeByCode ds (jsTrim query) with
      | some po =>
        [{ rtype := "postOffice", name := po.name, district := some po.district,
           postalCode := some po.postalCode, relevance := 100,
           matchType := some "exact_postal" }]
      | none => []
    else []
  let searchResults := NepalGeoData.search ds query "all"
  let withTypes := (searchResults.filter
      (fun r => minRelevance ≤ (r.relevance : ℚ))).map
    (fun r => { r with matchType := some (determineMatchType query r) })
  (sortResults (removeDuplicates (postal ++ withTypes))).take limit

/-- `GeoSearch.searchDistricts` (`lib/geo-search.js`), for a string query.
`limit` is the caller option (default 5); `includeStats = false` is baked
in.  Note there is no falsy/type guard on `query` in the source. -/
def searchDistricts (ds : GeoDataset) (query : Str) (limit : ℕ) :
    List SearchResult :=
  let results := NepalGeoData.search ds query "district"
  (results.take limit).map (fun result =>
    { rtype := "district", name := result.name, district := none,
      postalCode := none, relevance := result.relevance,
      matchType := some (determineMatchType query result) })

/-- The `suggestions.add` step (`Set.add`): append if not yet present. -/
def addToSet (acc : List Str) (name : Str) : List Str :=
  if name ∈ acc then acc else acc ++ [name]

/-- `GeoSearch.getSuggestions` (`lib/geo-search.js`), for a string query.
`limit` and `stype` are the caller options (defaults 5 and `'all'`).
Collect district names and/or post-office names whose lowercase form
starts with the lowercase query into an insertion-ordered set, then
truncate. -/
def getSuggestions (ds : GeoDataset) (partialQuery : Str) (limit : ℕ)
    (stype : String) : List Str :=
  if partialQuery.length < 2 then []
  else
    let normalizedQuery := jsToLower partialQuery
    let s1 :=
      if stype = "all" ∨ stype = "district" then
        ds.districts.foldl (fun acc district =>
          if normalizedQuery <+: jsToLower district.name then
            addToSet acc district.name
          else acc) []
      else []
    let s2 :=
      if stype = "all" ∨ stype = "postOffice" then
        ds.postOffices.foldl (fun acc po =>
          if normalizedQuery <+: jsToLower po.name then
            addToSet acc po.name
          else acc) s1
      else s1
    s2.take limit

end GeoSearch

/-- A JavaScript value, as far as the public boundary of the core cares:
strings, numbers, booleans, `null`, `undefined`, arrays and plain objects
(an object is its list of own enumerable string-keyed properties). -/
inductive JSVal where
  | vstr (s : Str)
  | vnum (q : ℚ)
  | vbool (b : Bool)
  | vnull
  | vundef
  | varr (elems : List JSVal)
  | vobj (fields : List (String × JSVal))

/-- JavaScript truthiness (`NaN` never occurs among the values the embedded
code constructs, so `vnum` truthiness is just non-zero). -/
def truthy : JSVal → Bool
  | .vstr s => !(s == [])
  | .vnum q => !(q == 0)
  | .vbool b => b
  | .vnull => false
  | .vundef => false
  | .varr _ => true
  | .vobj _ => true

/-- Property access `obj[key]`: the first binding for the key, `undefined`
when absent. -/
def getField (fields : List (String × JSVal)) (key : String) : JSVal :=
  (fields.lookup key).getD JSVal.vundef

/-- Integer display used by string interpolation. -/
def jsNumDisplay (q : ℚ) : Str :=
  if q.den = 1 then (toString q.num).data
  else (toString q.num).data ++ "/".data ++ (toString q.den).data

mutual

/-- JavaScript `String(v)` as used by template-literal interpolation.
Non-integral numbers are rendered `num/den` rather than as a decimal
expansion; every number the embedded code actually interpolates is an
integer, and no theorem depends on this rendering. -/
def jsDisplay : JSVal → Str
  | .vstr s => s
  | .vnum q => jsNumDisplay q
  | .vbool true => "true".data
  | .vbool false => "false".data
  | .vnull => "null".data
  | .vundef => "undefined".data
  | .varr es => jsDisplayList es
  | .vobj _ => "[object Object]".data

/-- Array display: elements joined with commas, `null`/`undefined` elements
displayed as empty, as `Array.prototype.toString` does. -/
def jsDisplayList : List JSVal → Str
  | [] => []
  | [v] =>
    match v with
    | .vnull => []
    | .vundef => []
    | v => jsDisplay v
  | v :: rest =>
    (match v with
     | .vnull => []
     | .vundef => []
     | v => jsDisplay v) ++ ",".data ++ jsDisplayList rest

end

/-- `Array.prototype.join(', ')`. -/
def joinComma (l : List Str) : Str := List.intercalate ", ".data l

/-- The `completeness` object of `LocationValidator.calculateCompleteness`. -/
structure Completeness where
  score : ℤ
  percentage : Str
  present : List String
  missing : List String
  isComplete : Bool
deriving DecidableEq

/-- The result object of `LocationValidator.validateAddress`.  The guard's
early return carries no `completeness`/`recommendation` fields (they are
`undefined`), hence the `Option`s. -/
structure ValidationResult where
  isValid : Bool
  errors : List Str
  warnings : List Str
  suggestions : List Str
  completeness : Option Completeness
  recommendation : Option (List Str)
deriving DecidableEq

/-- Result of `LocationValidator.validateDistrict` (fields absent on one of
the two return paths are `Option`s). -/
structure DistrictVRes where
  isValid : Bool
  error : Option Str
  suggestions : List Str
  district : Option District
deriving DecidableEq

/-- Result of `LocationValidator.validatePostalCode`. -/
structure PostalVRes where
  isValid : Bool
  error : Option Str
  postalInfo : Option PostOffice
deriving DecidableEq

/-- Result of `LocationValidator.validatePostOffice`. -/
structure PostOfficeVRes where
  isValid : Bool
  error : Option Str
  postOffice : Option PostOffice
  suggestions : List Str
deriving DecidableEq

/-- One element of `LocationValidator.batchValidate`'s result. -/
structure BatchItem where
  index : ℕ
  address : JSVal
  validation : ValidationResult

/-- `v.toLowerCase()` on an arbitrary JavaScript value: a `TypeError` is
thrown unless the value is a string. -/
def jsToLowerJS (v : JSVal) : Except Str Str :=
  match v with
  | JSVal.vstr s => Except.ok (jsToLower s)
  | _ => Except.error "TypeError: toLowerCase is not a function".data

namespace LocationValidator

/-- `LocationValidator.findSimilarDistricts`: similarity against every
district name (both sides lower-cased), keep `> 0.3`, sort descending,
take 3 names. -/
def findSimilarDistricts (ds : GeoDataset) (input : Str) : List Str :=
  ((jsStableSortDesc (fun p : Str × ℚ => p.2)
    ((ds.districts.map (fun district =>
        (district.name,
         calculateSimilarity (jsToLower input) (jsToLower district.name)))).filter
      (fun item => (3/10 : ℚ) < item.2))).take 3).map (fun item => item.1)

/-- `LocationValidator.findSimilarPostOffices`: similarity-annotated post
offices with similarity `> 0.3`, sorted descending, first 5. -/
def findSimilarPostOffices (input : Str) (postOffices : List PostOffice) :
    List (PostOffice × ℚ) :=
  (jsStableSortDesc (fun p : PostOffice × ℚ => p.2)
    ((postOffices.map (fun po =>
        (po, calculateSimilarity (jsToLower input) (jsToLower po.name)))).filter
      (fun item => (3/10 : ℚ) < item.2))).take 5

/-- `LocationValidator.validateDistrict`: falsy or non-string input fails
the guard; otherwise case-insensitive dataset lookup, with similarity
suggestions on failure. -/
def validateDistrict (ds : GeoDataset) (district : JSVal) : DistrictVRes :=
  match district with
  | JSVal.vstr s =>
    if s = [] then
      ⟨false, some "District name is required and must be a string".data, [], none⟩
    else
      match NepalGeoData.getDistrictByName ds s with
      | some d => ⟨true, none, [], some d⟩
      | none =>
        ⟨false, some ("District \x27".data ++ s ++ "\x27 not found".data),
          findSimilarDistricts ds s, none⟩
  | _ => ⟨false, some "District name is required and must be a string".data, [], none⟩

/-- `LocationValidator.validatePostalCode`.  Note the source computes
`isValid: postalInfo !== null`, but `Array.prototype.find` yields
`undefined` (never `null`) for a missing code, so once the format check
passes `isValid` is `true` even for a nonexistent code; only the `error`
field reports nonexistence. -/
def validatePostalCode (ds : GeoDataset) (postalCode : JSVal) : PostalVRes :=
  match postalCode with
  | JSVal.vstr s =>
    if s = [] then
      ⟨false, some "Postal code is required and must be a string".data, none⟩
    else
      let trimmed := jsTrim s
      if ¬ (trimmed.length = 5 ∧ trimmed.all Char.isDigit) then
        ⟨false, some "Nepal postal codes must be exactly 5 digits".data, none⟩
      else
        let postalInfo := NepalGeoData.getPostOfficeByCode ds trimmed
        ⟨true,
         match postalInfo with
         | some _ => none
         | none => some "Postal code does not exist".data,
         postalInfo⟩
  | _ => ⟨false, some "Postal code is required and must be a string".data, none⟩

/-- `LocationValidator.validatePostOffice`.  When a truthy `district`
argument is present the candidate set is filtered by
`po.district.toLowerCase() === district.toLowerCase()`, which throws a
`TypeError` when `district` is a truthy non-string. -/
def validatePostOffice (ds : GeoDataset) (postOffice district : JSVal) :
    Except Str PostOfficeVRes :=
  match postOffice with
  | JSVal.vstr s =>
    if s = [] then
      Except.ok ⟨false,
        some "Post office name is required and must be a string".data, none, []⟩
    else do
      let postOffices ←
        if truthy district then
          (jsToLowerJS district).map (fun dl =>
            ds.postOffices.filter (fun po => jsToLower po.district == dl))
        else pure ds.postOffices
      match postOffices.find? (fun po => jsToLower po.name == jsToLower s) with
      | some exactMatch => pure ⟨true, none, some exactMatch, []⟩
      | none =>
        pure ⟨false,
          some ("Post office \x27".data ++ s ++ "\x27 not found".data ++
            (if truthy district then " in ".data ++ jsDisplay district else [])),
          none,
          ((findSimilarPostOffices s postOffices).take 3).map (fun p => p.1.name)⟩
  | _ =>
    Except.ok ⟨false,
      some "Post office name is required and must be a string".data, none, []⟩

/-- `Number.isInteger(ward) && 1 <= ward && ward <= 35`. -/
def isValidWard : JSVal → Bool
  | JSVal.vnum q => decide (q.den = 1) && decide ((1 : ℚ) ≤ q) && decide (q ≤ 35)
  | _ => false

/-- `typeof municipality === 'string' && municipality.trim().length >= 2`. -/
def isValidMunicipality : JSVal → Bool
  | JSVal.vstr s => decide (2 ≤ (jsTrim s).length)
  | _ => false

/-- `LocationValidator.calculateCompleteness`: weighted presence score.
A field is present when it is neither `undefined`, `null` nor `''`. -/
def calculateCompleteness (fields : List (String × JSVal)) : Completeness :=
  let names : List String := ["district", "municipality", "ward", "postOffice", "postalCode"]
  let weight : String → ℚ := fun f =>
    if f = "district" then 3/10
    else if f = "municipality" then 1/5
    else if f = "ward" then 1/5
    else if f = "postOffice" then 3/20
    else if f = "postalCode" then 3/20
    else 0
  let isPresent : String → Bool := fun f =>
    match getField fields f with
    | JSVal.vundef => false
    | JSVal.vnull => false
    | JSVal.vstr s => !(s == [])
    | _ => true
  let score := names.foldl (fun acc f => if isPresent f then acc + weight f else acc) 0
  ⟨jsRound (score * 100),
   (toString (jsRound (score * 100))).data ++ "%".data,
   names.filter isPresent,
   names.filter (fun f => !(isPresent f)),
   decide ((4/5 : ℚ) ≤ score)⟩

/-- `LocationValidator.getRecommendation`: the deterministic sequence of
next-step strings, in source push order. -/
def getRecommendation (fields : List (String × JSVal)) (errors warnings : List Str) :
    List Str :=
  let r1 : List Str := if errors.length ≠ 0 then
    ["Fix validation errors before using this address".data] else []
  let r2 : List Str := if truthy (getField fields "district") = false then
    ["Add district name for better address identification".data] else []
  let r3 : List Str := if truthy (getField fields "postalCode") = false then
    ["Include postal code for accurate mail delivery".data] else []
  let r4 : List Str := if truthy (getField fields "municipality") = false ∧
      truthy (getField fields "postOffice") = false then
    ["Add municipality or post office for precise location".data] else []
  let r5 : List Str := if truthy (getField fields "ward") = false then
    ["Include ward number for local administrative purposes".data] else []
  let r6 : List Str := if warnings.length ≠ 0 ∧ errors.length = 0 then
    ["Address is valid but could be more complete".data] else []
  let recs := r1 ++ r2 ++ r3 ++ r4 ++ r5 ++ r6
  if recs.length = 0 then ["Address is complete and valid".data] else recs

/-- The body of `LocationValidator.validateAddress` once the object guard
has passed (`fields` are the address's properties; arrays pass the guard
with no address fields).  Each per-field check contributes its errors,
warnings and suggestions in source order.  The district cross-check and
the post-office check can throw a `TypeError` when the `district` field is
a truthy non-string, hence the `Except`. -/
def validateAddressObj (ds : GeoDataset) (fields : List (String × JSVal)) :
    Except Str ValidationResult := do
  let districtV := getField fields "district"
  let dres : List Str × List Str × List Str :=
    if truthy districtV then
      let districtResult := validateDistrict ds districtV
      if districtResult.isValid = false then
        (["Invalid district: ".data ++ jsDisplay districtV],
         (if districtResult.suggestions.length ≠ 0 then
           ["Did you mean: ".data ++ joinComma districtResult.suggestions ++ "?".data]
          else []),
         [])
      else ([], [], [])
    else ([], [], ["District not specified".data])
  let postalV := getField fields "postalCode"
  let pres : List Str × List Str ←
    if truthy postalV then
      let postalResult := validatePostalCode ds postalV
      if postalResult.isValid = false then
        pure (["Invalid postal code: ".data ++ jsDisplay postalV], [])
      else
        if truthy districtV then
          match (match postalV with
                 | JSVal.vstr s => NepalGeoData.getPostOfficeByCode ds s
                 | _ => none) with
          | some postalInfo => do
            let dl ← jsToLowerJS districtV
            if ¬ (jsToLower postalInfo.district = dl) then
              pure (["Postal code ".data ++ jsDisplay postalV ++
                      " does not belong to district ".data ++ jsDisplay districtV],
                    ["Postal code ".data ++ jsDisplay postalV ++
                      " belongs to ".data ++ postalInfo.district])
            else pure ([], [])
          | none => pure ([], [])
        else pure ([], [])
    else pure ([], [])
  let postOfficeV := getField fields "postOffice"
  let ores : List Str × List Str ←
    if truthy postOfficeV then do
      let postOfficeResult ← validatePostOffice ds postOfficeV districtV
      if postOfficeResult.isValid = false then
        pure (["Invalid post office: ".data ++ jsDisplay postOfficeV],
              (if postOfficeResult.suggestions.length ≠ 0 then
                ["Similar post offices: ".data ++ joinComma postOfficeResult.suggestions]
               else []))
      else pure ([], [])
    else pure ([], [])
  let wardErrors : List Str :=
    match getField fields "ward" with
    | JSVal.vundef => []
    | w => if isValidWard w then []
           else ["Ward number must be an integer between 1 and 35".data]
  let muniErrors : List Str :=
    if truthy (getField fields "municipality") then
      if isValidMunicipality (getField fields "municipality") then []
      else ["Municipality name must be a valid string".data]
    else []
  let errors := dres.1 ++ pres.1 ++ ores.1 ++ wardErrors ++ muniErrors
  let warnings := dres.2.2
  let suggestions := dres.2.1 ++ pres.2 ++ ores.2
  pure ⟨errors.length == 0, errors, warnings, suggestions,
    some (calculateCompleteness fields),
    some (getRecommendation fields errors warnings)⟩

/-- `LocationValidator.validateAddress`: the shape guard
(`!address || typeof address !== 'object'`) returns the fixed invalid
result; arrays are `typeof 'object'` and truthy, so they reach the body
with no address fields. -/
def validateAddress (ds : GeoDataset) (address : JSVal) :
    Except Str ValidationResult :=
  match address with
  | JSVal.vobj fields => validateAddressObj ds fields
  | JSVal.varr _ => validateAddressObj ds []
  | _ =>
    Except.ok ⟨false, ["Address must be a valid object".data], [], [], none, none⟩

/-- `LocationValidator.batchValidate`: throws on a non-array input, else
validates each address independently, preserving order and index (a
`TypeError` thrown by `validateAddress` propagates out of the whole
batch, as the source's `map` callback would). -/
def batchValidate (ds : GeoDataset) (addresses : JSVal) :
    Except Str (List BatchItem) :=
  match addresses with
  | JSVal.varr xs =>
    xs.enum.mapM (fun p =>
      (validateAddress ds p.2).map (fun v => ⟨p.1, p.2, v⟩))
  | _ => Except.error "Addresses must be an array".data

end LocationValidator

namespace GeoSearch

/-- `GeoSearch.searchByQuery`'s public boundary: the
`!query || typeof query !== 'string'` guard returns `[]` (defaults:
limit 10, minRelevance 0.3). -/
def searchByQueryJS (ds : GeoDataset) (query : JSVal) : List SearchResult :=
  match query with
  | JSVal.vstr s => if s = [] then [] else searchByQuery ds s 10 (3/10)
  | _ => []

/-- `GeoSearch.searchDistricts`'s public boundary: there is no guard, and
`geoData.search` immediately calls `query.toLowerCase()`, so any
non-string query throws a `TypeError` (default limit 5). -/
def searchDistrictsJS (ds : GeoDataset) (query : JSVal) :
    Except Str (List SearchResult) :=
  match query with
  | JSVal.vstr s => Except.ok (searchDistricts ds s 5)
  | _ => Except.error "TypeError: query.toLowerCase is not a function".data

end GeoSearch

namespace NepalGeoData

theorem levenshteinDistance_nil_right (s : Str) :
    levenshteinDistance s [] = s.length := by
  cases s <;> simp [levenshteinDistance]

theorem levenshteinDistance_comm (s t : Str) :
    levenshteinDistance s t = levenshteinDistance t s := by
  induction s generalizing t with
  | nil => simp [levenshteinDistance, levenshteinDistance_nil_right]
  | cons c1 s1 ih =>
    induction t with
    | nil => simp [levenshteinDistance, levenshteinDistance_nil_right]
    | cons c2 t1 ih2 =>
      rw [levenshteinDistance, levenshteinDistance]
      by_cases h : c1 = c2
      · rw [if_pos h, if_pos h.symm, ih]
      · rw [if_neg h, if_neg (fun hh => h hh.symm)]
        rw [ih t1, ih (c2 :: t1), ← ih2]
        omega

theorem levenshteinDistance_le_max (s t : Str) :
    levenshteinDistance s t ≤ max s.length t.length := by
  induction s generalizing t with
  | nil => simp [levenshteinDistance]
  | cons c1 s1 ih =>
    cases t with
    | nil => simp [levenshteinDistance_nil_right]
    | cons c2 t1 =>
      rw [levenshteinDistance]
      by_cases h : c1 = c2
      · rw [if_pos h]
        have := ih t1
        simp only [List.length_cons]
        omega
      · rw [if_neg h]
        have h1 := ih t1
        have h2 := ih (c2 :: t1)
        simp only [List.length_cons] at *
        omega

theorem levenshteinDistance_ge_length_sub (s t : Str) :
    s.length - t.length ≤ levenshteinDistance s t ∧
      t.length - s.length ≤ levenshteinDistance s t := by
  induction s, t using levenshteinDistance.induct with
  | case1 t => simp [levenshteinDistance]
  | case2 c s => simp [levenshteinDistance_nil_right]
  | case3 s1 c2 t1 ih =>
    rw [levenshteinDistance, if_pos rfl]
    simp only [List.length_cons]
    omega
  | case4 c1 s1 c2 t1 h ih1 ih2 ih3 =>
    rw [levenshteinDistance, if_neg h]
    simp only [List.length_cons] at *
    omega

theorem levenshteinDistance_append_left (l s t : Str) :
    levenshteinDistance (l ++ s) (l ++ t) = levenshteinDistance s t := by
  induction l with
  | nil => rfl
  | cons c l ih =>
    rw [List.cons_append, List.cons_append, levenshteinDistance, if_pos rfl, ih]

theorem levenshteinDistance_replicate {a b : Char} (hab : a ≠ b) (m n : ℕ) :
    levenshteinDistance (List.replicate m a) (List.replicate n b) = max m n := by
  induction m generalizing n with
  | zero =>
    simp [levenshteinDistance]
  | succ m ihm =>
    induction n with
    | zero => simp [levenshteinDistance_nil_right]
    | succ n ihn =>
      rw [List.replicate_succ, List.replicate_succ, levenshteinDistance, if_neg hab]
      rw [show (a :: List.replicate m a) = List.replicate (m + 1) a from
        (List.replicate_succ a m).symm]
      rw [show (b :: List.replicate n b) = List.replicate (n + 1) b from
        (List.replicate_succ b n).symm]
      rw [ihm n, ihm (n + 1), ihn]
      omega

theorem levenshteinDistance_eq_zero_iff (s t : Str) :
    levenshteinDistance s t = 0 ↔ s = t := by
  induction s generalizing t with
  | nil =>
    cases t <;> simp [levenshteinDistance]
  | cons c1 s1 ih =>
    cases t with
    | nil => simp [levenshteinDistance_nil_right]
    | cons c2 t1 =>
      rw [levenshteinDistance]
      by_cases h : c1 = c2
      · rw [if_pos h]
        subst h
        simp [ih]
      · rw [if_neg h]
        simp [h]

end NepalGeoData

theorem jsRound_le {x : ℚ} {n : ℤ} (h : x ≤ (n : ℚ)) : jsRound x ≤ n := by
  have : jsRound x < n + 1 := by
    rw [jsRound, Int.floor_lt]
    push_cast
    linarith
  omega

theorem le_jsRound {x : ℚ} {n : ℤ} (h : (n : ℚ) ≤ x) : n ≤ jsRound x := by
  rw [jsRound, Int.le_floor]
  linarith

namespace NepalGeoData

theorem calculateFuzzyScore_bounds (text query : Str) :
    0 ≤ calculateFuzzyScore text query ∧ calculateFuzzyScore text query ≤ 75 := by
  simp only [calculateFuzzyScore]
  split
  · norm_num
  · split
    · norm_num
    · split
      · norm_num
      · split
        · norm_num
        · next hmax =>
          split
          · next hsim =>
            have hdiv : (0 : ℚ) ≤
                (levenshteinDistance text query : ℚ) /
                  ((max text.length query.length : ℕ) : ℚ) := by positivity
            push_cast at hsim hdiv
            constructor
            · exact le_jsRound (by push_cast; linarith)
            · exact jsRound_le (by push_cast; linarith)
          · norm_num

theorem calculateRelevance_nonneg (text query : Str) :
    0 ≤ calculateRelevance text query := by
  simp only [calculateRelevance]
  split
  · norm_num
  · split
    · norm_num
    · split
      · norm_num
      · split
        · next h => exact le_of_lt h
        · positivity

end NepalGeoData

/-- C1 (amended): the relevance score is a nonnegative integer, and whenever
the query splits into at most 5 space-separated tokens (every real query the
package compares — district names, post-office names, postal codes — does),
the score is at most 100.  The unrestricted claim is false: see
`claim_C1_counterexample`, where a 6-token query scores 120 through the
token-overlap fallback. -/
theorem claim_C1_relevance_range (text query : Str)
    (htokens : (jsSplitOnSpace (jsToLower query)).length ≤ 5) :
    0 ≤ NepalGeoData.calculateRelevance text query ∧
      NepalGeoData.calculateRelevance text query ≤ 100 := by
  refine ⟨NepalGeoData.calculateRelevance_nonneg text query, ?_⟩
  simp only [NepalGeoData.calculateRelevance]
  split
  · norm_num
  · split
    · norm_num
    · split
      · norm_num
      · split
        · have := NepalGeoData.calculateFuzzyScore_bounds
            (jsToLower text) (jsToLower query)
          omega
        · have hle : ((jsSplitOnSpace (jsToLower query)).filter
              (fun word => decide (word <:+: jsToLower text))).length ≤ 5 :=
            le_trans (List.length_filter_le _ _) htokens
          have : (((jsSplitOnSpace (jsToLower query)).filter
              (fun word => decide (word <:+: jsToLower text))).length : ℤ) ≤ 5 := by
            exact_mod_cast hle
          linarith

/-- C1 witness at concrete inputs. -/
theorem claim_C1_relevance_range_witness :
    0 ≤ NepalGeoData.calculateRelevance "kathmandu".data "kat".data ∧
      NepalGeoData.calculateRelevance "kathmandu".data "kat".data ≤ 100 :=
  claim_C1_relevance_range "kathmandu".data "kat".data (by decide)

/-- C1 counterexample: the claim as stated ("relevance is always in
`[0,100]`; the token-overlap fallback never pushes the result above 100")
is false.  For candidate text `"xax"` and the 6-token query
`"a a a a a a"`, rules 1–6 all fail and the fallback adds 20 for each of
the six `"a"` tokens contained in `"xax"`, returning 120 > 100. -/
theorem claim_C1_counterexample :
    NepalGeoData.calculateRelevance "xax".data "a a a a a a".data = 120 ∧
      ¬ NepalGeoData.calculateRelevance "xax".data "a a a a a a".data ≤ 100 := by
  have hd8 : 8 ≤ NepalGeoData.levenshteinDistance "xax".data "a a a a a a".data := by
    have h := NepalGeoData.levenshteinDistance_ge_length_sub "xax".data "a a a a a a".data
    have h1 : ("xax".data : Str).length = 3 := by decide
    have h2 : ("a a a a a a".data : Str).length = 11 := by decide
    omega
  have hfz : NepalGeoData.calculateFuzzyScore "xax".data "a a a a a a".data = 0 := by
    simp only [NepalGeoData.calculateFuzzyScore,
      show NepalGeoData.abbrevHit "xax".data "a a a a a a".data = false by decide,
      show NepalGeoData.reverseAbbrevHit "xax".data "a a a a a a".data = false by decide,
      show NepalGeoData.acronymHit "xax".data "a a a a a a".data = false by decide,
      Bool.false_eq_true, if_false,
      show ("xax".data : Str).length = 3 by decide,
      show ("a a a a a a".data : Str).length = 11 by decide]
    rw [if_neg (by decide : ¬ max 3 11 = 0)]
    rw [if_neg ?_]
    have hdq : (8 : ℚ) ≤ (NepalGeoData.levenshteinDistance "xax".data "a a a a a a".data : ℚ) := by
      exact_mod_cast hd8
    rw [show ((max 3 11 : ℕ) : ℚ) = 11 by norm_num]
    intro hlt
    have : (NepalGeoData.levenshteinDistance "xax".data "a a a a a a".data : ℚ) / 11 ≥ 8 / 11 := by
      linarith
    linarith
  have h120 : NepalGeoData.calculateRelevance "xax".data "a a a a a a".data = 120 := by
    simp only [NepalGeoData.calculateRelevance,
      show jsToLower "xax".data = "xax".data by decide,
      show jsToLower "a a a a a a".data = "a a a a a a".data by decide, hfz]
    rw [if_neg (by decide : ¬ ("xax".data : Str) = "a a a a a a".data)]
    rw [if_neg (by decide : ¬ ("a a a a a a".data : Str) <+: "xax".data)]
    rw [if_neg (by decide : ¬ ("a a a a a a".data : Str) <:+: "xax".data)]
    rw [if_neg (by norm_num : ¬ (0 : ℤ) < 0)]
    decide
  exact ⟨h120, by omega⟩

namespace NepalGeoData

theorem foldl_addEntry_postOffices (entries : List RawEntry) :
    ∀ acc : GeoDataset, (entries.foldl addEntry acc).postOffices =
      acc.postOffices ++ entries.map mkPostOffice := by
  induction entries with
  | nil => intro acc; simp
  | cons e es ih =>
    intro acc
    rw [List.foldl_cons, ih]
    simp [addEntry]

theorem processData_postOffices (entries : List RawEntry) :
    (processData entries).postOffices = entries.map mkPostOffice := by
  rw [processData, foldl_addEntry_postOffices]
  rfl

end NepalGeoData

/-- C2 counterexample: the claim that no core operation except the export
functions ever throws is false.  `batchValidate` throws
`'Addresses must be an array'` on a string input, and
`GeoSearch.searchDistricts` (which has no input guard) throws a
`TypeError` when the query is a number. -/
theorem claim_C2_counterexample :
    LocationValidator.batchValidate
        (NepalGeoData.processData
          [⟨"Kathmandu".data, "Kathmandu G.P.O.".data, "44600".data, "G.P.O.".data⟩])
        (JSVal.vstr "not an array".data) =
      Except.error "Addresses must be an array".data ∧
      GeoSearch.searchDistrictsJS
        (NepalGeoData.processData
          [⟨"Kathmandu".data, "Kathmandu G.P.O.".data, "44600".data, "G.P.O.".data⟩])
        (JSVal.vnum 5) =
      Except.error "TypeError: query.toLowerCase is not a function".data :=
  ⟨rfl, rfl⟩

/-- C2 (amended): on wrong-shape inputs, `searchByQuery` returns `[]` for a
falsy or non-string query and `validateAddress` returns an invalid
`ValidationResult` with the error `'Address must be a valid object'` for a
non-object address, without throwing; but `batchValidate` throws
`'Addresses must be an array'` on a non-array input, and
`GeoSearch.searchDistricts` throws a `TypeError` on a non-string query
instead of returning an empty result. -/
theorem claim_C2_shape_errors (ds : GeoDataset) (v : JSVal) :
    ((∀ s, v ≠ JSVal.vstr s) → GeoSearch.searchByQueryJS ds v = []) ∧
      ((∀ f, v ≠ JSVal.vobj f) → (∀ xs, v ≠ JSVal.varr xs) →
        LocationValidator.validateAddress ds v =
          Except.ok ⟨false, ["Address must be a valid object".data], [], [], none, none⟩) ∧
      ((∀ xs, v ≠ JSVal.varr xs) →
        LocationValidator.batchValidate ds v =
          Except.error "Addresses must be an array".data) ∧
      ((∀ s, v ≠ JSVal.vstr s) →
        GeoSearch.searchDistrictsJS ds v =
          Except.error "TypeError: query.toLowerCase is not a function".data) := by
  refine ⟨?_, ?_, ?_, ?_⟩
  · intro h
    cases v with
    | vstr s => exact absurd rfl (h s)
    | vnum q => rfl
    | vbool b => rfl
    | vnull => rfl
    | vundef => rfl
    | varr xs => rfl
    | vobj f => rfl
  · intro hob har
    cases v with
    | vstr s => rfl
    | vnum q => rfl
    | vbool b => rfl
    | vnull => rfl
    | vundef => rfl
    | varr xs => exact absurd rfl (har xs)
    | vobj f => exact absurd rfl (hob f)
  · intro h
    cases v with
    | vstr s => rfl
    | vnum q => rfl
    | vbool b => rfl
    | vnull => rfl
    | vundef => rfl
    | varr xs => exact absurd rfl (h xs)
    | vobj f => rfl
  · intro h
    cases v with
    | vstr s => exact absurd rfl (h s)
    | vnum q => rfl
    | vbool b => rfl
    | vnull => rfl
    | vundef => rfl
    | varr xs => rfl
    | vobj f => rfl

/-- C2 witness: the amended claim instantiated at a number input. -/
theorem claim_C2_shape_errors_witness :
    GeoSearch.searchByQueryJS (NepalGeoData.processData []) (JSVal.vnum 3) = [] ∧
      LocationValidator.validateAddress (NepalGeoData.processData []) (JSVal.vnum 3) =
        Except.ok ⟨false, ["Address must be a valid object".data], [], [], none, none⟩ ∧
      LocationValidator.batchValidate (NepalGeoData.processData []) (JSVal.vnum 3) =
        Except.error "Addresses must be an array".data ∧
      GeoSearch.searchDistrictsJS (NepalGeoData.processData []) (JSVal.vnum 3) =
        Except.error "TypeError: query.toLowerCase is not a function".data := by
  have h := claim_C2_shape_errors (NepalGeoData.processData []) (JSVal.vnum 3)
  exact ⟨h.1 (fun s hh => JSVal.noConfusion hh),
    h.2.1 (fun f hh => JSVal.noConfusion hh) (fun xs hh => JSVal.noConfusion hh),
    h.2.2.1 (fun xs hh => JSVal.noConfusion hh),
    h.2.2.2 (fun s hh => JSVal.noConfusion hh)⟩

/-- C3 counterexample: `processData` performs no postal-code deduplication,
so building the store from two raw records that share postal code 44600
yields two stored post offices with the same code — the uniqueness claim is
false for that input sequence. -/
theorem claim_C3_counterexample :
    ¬ ((NepalGeoData.processData
        [⟨"Kathmandu".data, "Office A".data, "44600".data, "D.P.O.".data⟩,
         ⟨"Lalitpur".data, "Office B".data, "44600".data, "A.P.O.".data⟩]).postOffices.map
        (fun p => p.postalCode)).Nodup := by
  decide

/-- C3 (amended): `processData` stores exactly one `PostOffice` per raw
record and never merges or drops records, so the stored postal codes are
pairwise distinct precisely when the raw records' postal codes are; the
load step itself enforces nothing. -/
theorem claim_C3_postalCode_unique (entries : List RawEntry)
    (h : (entries.map (fun e => e.postalCode)).Nodup) :
    ((NepalGeoData.processData entries).postOffices.map
      (fun p => p.postalCode)).Nodup := by
  rw [NepalGeoData.processData_postOffices, List.map_map]
  simpa [Function.comp, NepalGeoData.mkPostOffice] using h

/-- C3 witness at a concrete input with distinct raw postal codes. -/
theorem claim_C3_postalCode_unique_witness :
    ((NepalGeoData.processData
        [⟨"Kathmandu".data, "Office A".data, "44600".data, "D.P.O.".data⟩,
         ⟨"Lalitpur".data, "Office B".data, "44700".data, "A.P.O.".data⟩]).postOffices.map
      (fun p => p.postalCode)).Nodup :=
  claim_C3_postalCode_unique _ (by decide)

section SortLemmas

open List

variable {α K : Type} [LinearOrder K] (key : α → K)

theorem mem_insertRanked (x : α) (l : List α) (z : α) :
    z ∈ insertRanked key x l ↔ z = x ∨ z ∈ l := by
  induction l with
  | nil => simp [insertRanked]
  | cons y ys ih =>
    rw [insertRanked]
    split
    · simp
    · rw [List.mem_cons, ih, List.mem_cons]
      tauto

theorem insertRanked_perm (x : α) (l : List α) :
    insertRanked key x l ~ x :: l := by
  induction l with
  | nil => exact List.Perm.refl _
  | cons y ys ih =>
    rw [insertRanked]
    split
    · exact List.Perm.refl _
    · exact (ih.cons y).trans (List.Perm.swap x y ys)

theorem foldl_insertRanked_perm (l : List α) :
    ∀ acc : List α, l.foldl (fun a x => insertRanked key x a) acc ~ acc ++ l := by
  induction l with
  | nil => intro acc; simp
  | cons x xs ih =>
    intro acc
    rw [List.foldl_cons]
    refine ((ih _).trans ?_)
    refine List.Perm.trans ?_ List.perm_middle.symm
    exact ((insertRanked_perm key x acc).append_right xs)

theorem jsStableSortDesc_perm (l : List α) : jsStableSortDesc key l ~ l := by
  simpa using foldl_insertRanked_perm key l []

theorem pairwise_insertRanked (x : α) (l : List α)
    (h : l.Pairwise (fun a b => key b ≤ key a)) :
    (insertRanked key x l).Pairwise (fun a b => key b ≤ key a) := by
  induction l with
  | nil => simp [insertRanked]
  | cons y ys ih =>
    rw [List.pairwise_cons] at h
    obtain ⟨hy, hys⟩ := h
    rw [insertRanked]
    split
    · next hxy =>
      rw [List.pairwise_cons]
      refine ⟨?_, by rw [List.pairwise_cons]; exact ⟨hy, hys⟩⟩
      intro z hz
      rcases List.mem_cons.mp hz with rfl | hz
      · exact hxy.le
      · exact (hy z hz).trans hxy.le
    · next hxy =>
      rw [List.pairwise_cons]
      refine ⟨?_, ih hys⟩
      intro z hz
      rcases (mem_insertRanked key x ys z).mp hz with rfl | hz
      · exact not_lt.mp hxy
      · exact hy z hz

theorem jsStableSortDesc_pairwise (l : List α) :
    (jsStableSortDesc key l).Pairwise (fun a b => key b ≤ key a) := by
  rw [jsStableSortDesc]
  have main : ∀ (l acc : List α), acc.Pairwise (fun a b => key b ≤ key a) →
      (l.foldl (fun a x => insertRanked key x a) acc).Pairwise
        (fun a b => key b ≤ key a) := by
    intro l
    induction l with
    | nil => intro acc h; simpa
    | cons x xs ih =>
      intro acc h
      exact ih _ (pairwise_insertRanked key x acc h)
  exact main l [] (by simp)

theorem insertRanked_cons_of_le (x r0 : α) (acc : List α) (h : ¬ key r0 < key x) :
    insertRanked key x (r0 :: acc) = r0 :: insertRanked key x acc := by
  rw [insertRanked, if_neg h]

theorem foldl_insertRanked_head (l : List α) (r0 : α) :
    ∀ acc : List α, (∀ x ∈ l, key x ≤ key r0) →
      ∃ t, l.foldl (fun a x => insertRanked key x a) (r0 :: acc) = r0 :: t := by
  induction l with
  | nil => intro acc _; exact ⟨acc, rfl⟩
  | cons x xs ih =>
    intro acc h
    rw [List.foldl_cons,
      insertRanked_cons_of_le key x r0 acc (not_lt.mpr (h x (by simp)))]
    exact ih _ (fun z hz => h z (by simp [hz]))

theorem jsStableSortDesc_head_max (r0 : α) (rest : List α)
    (h : ∀ x ∈ rest, key x ≤ key r0) :
    ∃ t, jsStableSortDesc key (r0 :: rest) = r0 :: t := by
  rw [jsStableSortDesc, List.foldl_cons]
  exact foldl_insertRanked_head key rest r0 [] h

theorem insertRanked_append_of_not_lt (x : α) (l : List α)
    (h : ∀ y ∈ l, ¬ key y < key x) : insertRanked key x l = l ++ [x] := by
  induction l with
  | nil => rfl
  | cons y ys ih =>
    rw [insertRanked, if_neg (h y (by simp)), ih (fun z hz => h z (by simp [hz]))]
    rfl

theorem jsStableSortDesc_of_all_eq (l : List α) (c : K)
    (h : ∀ x ∈ l, key x = c) : jsStableSortDesc key l = l := by
  rw [jsStableSortDesc]
  have main : ∀ (l acc : List α), (∀ x ∈ l, key x = c) → (∀ y ∈ acc, key y = c) →
      l.foldl (fun a x => insertRanked key x a) acc = acc ++ l := by
    intro l
    induction l with
    | nil => intro acc _ _; simp
    | cons x xs ih =>
      intro acc hl hacc
      rw [List.foldl_cons, insertRanked_append_of_not_lt key x acc
        (fun y hy => by rw [hacc y hy, hl x (by simp)]; exact lt_irrefl c)]
      rw [ih (acc ++ [x]) (fun z hz => hl z (by simp [hz])) ?_]
      · simp
      · intro y hy
        rcases List.mem_append.mp hy with hy | hy
        · exact hacc y hy
        · rw [List.mem_singleton.mp hy]
          exact hl x (by simp)
  simpa using main l [] h (by simp)

end SortLemmas

theorem jsSplitOnSpace_of_no_space {l : Str} (h : ' ' ∉ l) : jsSplitOnSpace l = [l] := by
  induction l with
  | nil => rfl
  | cons c rest ih =>
    rw [jsSplitOnSpace, if_neg (fun hc => h (by rw [hc]; exact List.mem_cons_self ' ' rest))]
    rw [ih (fun hr => h (List.mem_cons_of_mem c hr))]

namespace NepalGeoData

theorem calculateRelevance_eq_100 {t q : Str} (h : jsToLower t = jsToLower q) :
    calculateRelevance t q = 100 := by
  simp only [calculateRelevance]
  rw [if_pos h]

theorem calculateRelevance_le_80 {t q : Str} (hns : ' ' ∉ jsToLower q)
    (hne : jsToLower t ≠ jsToLower q) : calculateRelevance t q ≤ 80 := by
  simp only [calculateRelevance]
  rw [if_neg hne]
  split
  · exact le_refl _
  · split
    · norm_num
    · next hinf =>
      split
      · next hf =>
        have := calculateFuzzyScore_bounds (jsToLower t) (jsToLower q)
        omega
      · rw [jsSplitOnSpace_of_no_space hns]
        simp [hinf]

theorem calculateRelevance_empty_query {t : Str} (h : t ≠ []) :
    calculateRelevance t [] = 80 := by
  have hnil : jsToLower ([] : Str) = ([] : Str) := rfl
  simp only [calculateRelevance, hnil]
  rw [if_neg (by simpa [jsToLower] using h), if_pos (List.nil_prefix)]

end NepalGeoData

namespace GeoSearch

theorem mem_removeDuplicatesAux {x : SearchResult} :
    ∀ (seen : List Str) (l : List SearchResult),
      x ∈ removeDuplicatesAux seen l → x ∈ l := by
  intro seen l
  induction l generalizing seen with
  | nil => intro h; exact absurd h (List.not_mem_nil x)
  | cons r rest ih =>
    intro h
    rw [removeDuplicatesAux] at h
    split at h
    · exact List.mem_cons_of_mem r (ih _ h)
    · rcases List.mem_cons.mp h with rfl | h
      · exact List.mem_cons_self _ _
      · exact List.mem_cons_of_mem r (ih _ h)

theorem removeDuplicates_cons (r0 : SearchResult) (rest : List SearchResult) :
    removeDuplicates (r0 :: rest) =
      r0 :: removeDuplicatesAux [dedupKey r0] rest := by
  rw [removeDuplicates, removeDuplicatesAux, if_neg (List.not_mem_nil _)]

theorem matchTypePriority_determineMatchType_le (q : Str) (r : SearchResult) :
    matchTypePriority (some (determineMatchType q r)) ≤ 5 := by
  simp only [determineMatchType]
  split
  · decide
  · split
    · decide
    · split
      · decide
      · split
        · decide
        · decide

theorem matchTypePriority_determineMatchType_le_4 (q : Str) (r : SearchResult)
    (h : jsToLower r.name ≠ jsToLower q) :
    matchTypePriority (some (determineMatchType q r)) ≤ 4 := by
  simp only [determineMatchType]
  rw [if_neg h]
  split
  · decide
  · split
    · decide
    · split
      · decide
      · decide

theorem determineMatchType_eq_exact (q : Str) (r : SearchResult)
    (h : jsToLower r.name = jsToLower q) :
    determineMatchType q r = "exact" := by
  simp only [determineMatchType]
  rw [if_pos h]

end GeoSearch

namespace NepalGeoData

theorem mem_search_district {ds : GeoDataset} {query : Str} {r : SearchResult}
    (hr : r ∈ search ds query "district") :
    20 < r.relevance ∧
      ∃ d ∈ ds.districts, r = ⟨"district", d.name, none, none,
        calculateRelevance d.name (jsTrim (jsToLower query)), none⟩ := by
  simp only [search, String.reduceEq, or_true, true_or, or_false, false_or,
    reduceIte, List.append_nil] at hr
  have hr2 := (jsStableSortDesc_perm (fun r : SearchResult => r.relevance) _).mem_iff.mp hr
  rw [List.mem_filter] at hr2
  obtain ⟨hmem, hrel⟩ := hr2
  refine ⟨by simpa using hrel, ?_⟩
  rw [List.mem_filterMap] at hmem
  obtain ⟨d, hd, hfd⟩ := hmem
  rw [Option.ite_none_right_eq_some, Option.some.injEq] at hfd
  exact ⟨d, hd, hfd.2.symm⟩

theorem search_district_mem {ds : GeoDataset} {query : Str} {d : District}
    (hd : d ∈ ds.districts)
    (h20 : 20 < calculateRelevance d.name (jsTrim (jsToLower query))) :
    (⟨"district", d.name, none, none,
      calculateRelevance d.name (jsTrim (jsToLower query)), none⟩ : SearchResult)
      ∈ search ds query "district" := by
  simp only [search, String.reduceEq, or_true, true_or, or_false, false_or,
    reduceIte, List.append_nil]
  apply (jsStableSortDesc_perm (fun r : SearchResult => r.relevance) _).mem_iff.mpr
  rw [List.mem_filter]
  refine ⟨?_, by simpa using h20⟩
  rw [List.mem_filterMap]
  refine ⟨d, hd, ?_⟩
  rw [Option.ite_none_right_eq_some, Option.some.injEq]
  exact ⟨by omega, rfl⟩

theorem mem_search_all {ds : GeoDataset} {query : Str} {r : SearchResult}
    (hr : r ∈ search ds query "all") :
    20 < r.relevance ∧
      ((∃ d ∈ ds.districts, r = ⟨"district", d.name, none, none,
          calculateRelevance d.name (jsTrim (jsToLower query)), none⟩) ∨
       (∃ po ∈ ds.postOffices, r = ⟨"postOffice", po.name, some po.district,
          some po.postalCode,
          max (calculateRelevance po.name (jsTrim (jsToLower query)))
            (if query <:+: po.postalCode then 90 else 0), none⟩)) := by
  simp only [search, String.reduceEq, or_true, true_or, or_false, false_or,
    reduceIte] at hr
  have hr2 := (jsStableSortDesc_perm (fun r : SearchResult => r.relevance) _).mem_iff.mp hr
  rw [List.mem_filter] at hr2
  obtain ⟨hmem, hrel⟩ := hr2
  refine ⟨by simpa using hrel, ?_⟩
  rcases List.mem_append.mp hmem with hmem | hmem
  · left
    rw [List.mem_filterMap] at hmem
    obtain ⟨d, hd, hfd⟩ := hmem
    rw [Option.ite_none_right_eq_some, Option.some.injEq] at hfd
    exact ⟨d, hd, hfd.2.symm⟩
  · right
    rw [List.mem_filterMap] at hmem
    obtain ⟨po, hpo, hfpo⟩ := hmem
    rw [Option.ite_none_right_eq_some, Option.some.injEq] at hfpo
    exact ⟨po, hpo, hfpo.2.symm⟩

theorem search_pairwise (ds : GeoDataset) (query : Str) (stype : String) :
    (search ds query stype).Pairwise (fun a b => b.relevance ≤ a.relevance) := by
  simp only [search]
  exact jsStableSortDesc_pairwise (fun r : SearchResult => r.relevance) _

end NepalGeoData

namespace GeoSearch

theorem sortKey_withTypes_le {ds : GeoDataset} {query : Str}
    {minRelevance : ℚ} {x : SearchResult}
    (htrim : jsTrim query = query) (hlower : jsToLower query = query)
    (hx : x ∈ ((NepalGeoData.search ds query "all").filter
        (fun r => minRelevance ≤ (r.relevance : ℚ))).map
      (fun r => { r with matchType := some (determineMatchType query r) })) :
    sortKey x ≤ toLex ((5 : ℤ), (100 : ℤ)) := by
  rw [List.mem_map] at hx
  obtain ⟨r, hrmem, rfl⟩ := hx
  rw [List.mem_filter] at hrmem
  have hsearch := NepalGeoData.mem_search_all hrmem.1
  have hnq : jsTrim (jsToLower query) = query := by rw [hlower, htrim]
  by_cases hname : jsToLower r.name = jsToLower query
  · have hmt := determineMatchType_eq_exact query r hname
    have hrel : r.relevance = 100 := by
      rcases hsearch.2 with ⟨d, hd, rfl⟩ | ⟨p, hp, rfl⟩
      · dsimp only at hname ⊢
        rw [hnq]
        apply NepalGeoData.calculateRelevance_eq_100
        rw [hname, hlower]
      · dsimp only at hname ⊢
        rw [hnq]
        rw [NepalGeoData.calculateRelevance_eq_100 (by rw [hname, hlower])]
        split <;> norm_num
    rw [sortKey, hmt]
    dsimp only
    rw [hrel, show matchTypePriority (some "exact") = 5 from by decide]
  · have hp4 := matchTypePriority_determineMatchType_le_4 query r hname
    rw [sortKey]
    dsimp only
    rw [Prod.Lex.le_iff]
    left
    dsimp only
    omega

end GeoSearch

/-- C4: for every postal code present in the dataset (a 5-digit string,
hence fixed by `trim` and `toLowerCase`), `searchByQuery` with the default
options (scope `'all'`, limit 10, minRelevance 0.3) puts the owning post
office's `exact_postal` entry (relevance 100) first: it is pushed first,
survives deduplication as the first occurrence, and no other entry has a
strictly larger (matchType-priority, relevance) sort key. -/
theorem claim_C4_exact_postal_first (ds : GeoDataset) (query : Str) (po : PostOffice)
    (hlen : query.length = 5)
    (hdig : query.all Char.isDigit = true)
    (htrim : jsTrim query = query)
    (hlower : jsToLower query = query)
    (hpo : NepalGeoData.getPostOfficeByCode ds query = some po) :
    (GeoSearch.searchByQuery ds query 10 (3/10)).head? =
      some ⟨"postOffice", po.name, some po.district, some po.postalCode, 100,
        some "exact_postal"⟩ := by
  have hpostal :
      (if (jsTrim query).length = 5 ∧ (jsTrim query).all Char.isDigit then
        match NepalGeoData.getPostOfficeByCode ds (jsTrim query) with
        | some po =>
          [(⟨"postOffice", po.name, some po.district, some po.postalCode, 100,
            some "exact_postal"⟩ : SearchResult)]
        | none => []
      else []) =
      [⟨"postOffice", po.name, some po.district, some po.postalCode, 100,
        some "exact_postal"⟩] := by
    rw [htrim, if_pos ⟨hlen, hdig⟩, hpo]
  simp only [GeoSearch.searchByQuery, hpostal]
  rw [List.singleton_append, GeoSearch.removeDuplicates_cons]
  have hbound : ∀ x ∈ GeoSearch.removeDuplicatesAux
      [GeoSearch.dedupKey ⟨"postOffice", po.name, some po.district,
        some po.postalCode, 100, some "exact_postal"⟩]
      (((NepalGeoData.search ds query "all").filter
        (fun r => (3/10 : ℚ) ≤ (r.relevance : ℚ))).map
        (fun r => { r with matchType := some (GeoSearch.determineMatchType query r) })),
      GeoSearch.sortKey x ≤ GeoSearch.sortKey ⟨"postOffice", po.name,
        some po.district, some po.postalCode, 100, some "exact_postal"⟩ := by
    intro x hx
    have hx2 := GeoSearch.mem_removeDuplicatesAux _ _ hx
    have hle := GeoSearch.sortKey_withTypes_le htrim hlower hx2
    rw [show GeoSearch.sortKey ⟨"postOffice", po.name, some po.district,
        some po.postalCode, 100, some "exact_postal"⟩ = toLex ((5 : ℤ), (100 : ℤ)) from by
      rw [GeoSearch.sortKey]
      dsimp only
      rw [show GeoSearch.matchTypePriority (some "exact_postal") = 5 from by decide]]
    exact hle
  obtain ⟨t, hsort⟩ := jsStableSortDesc_head_max GeoSearch.sortKey _ _ hbound
  rw [GeoSearch.sortResults, hsort,
    show (10 : ℕ) = 9 + 1 from rfl, List.take_succ_cons, List.head?_cons]

/-- C4 witness at a concrete dataset with postal code 44600 present. -/
theorem claim_C4_exact_postal_first_witness :
    (GeoSearch.searchByQuery
        (NepalGeoData.processData
          [⟨"Kathmandu".data, "Kathmandu G.P.O.".data, "44600".data, "G.P.O.".data⟩,
           ⟨"Lalitpur".data, "Lalitpur D.P.O.".data, "44700".data, "D.P.O.".data⟩])
        "44600".data 10 (3/10)).head? =
      some ⟨"postOffice", "Kathmandu G.P.O.".data, some "Kathmandu".data,
        some "44600".data, 100, some "exact_postal"⟩ :=
  claim_C4_exact_postal_first
    (NepalGeoData.processData
      [⟨"Kathmandu".data, "Kathmandu G.P.O.".data, "44600".data, "G.P.O.".data⟩,
       ⟨"Lalitpur".data, "Lalitpur D.P.O.".data, "44700".data, "D.P.O.".data⟩])
    "44600".data
    ⟨"Kathmandu G.P.O.".data, "44600".data, "G.P.O.".data, "Kathmandu".data⟩
    (by decide) (by decide) (by decide) (by decide) (by decide)

namespace GeoSearch

theorem addToSet_nodup (acc : List Str) (x : Str) (h : acc.Nodup) :
    (addToSet acc x).Nodup := by
  rw [addToSet]
  split
  · exact h
  · next hx =>
    exact List.Nodup.append h (List.nodup_singleton x)
      (by simpa [List.disjoint_singleton] using hx)

theorem mem_addToSet {acc : List Str} {x y : Str} (h : y ∈ addToSet acc x) :
    y = x ∨ y ∈ acc := by
  rw [addToSet] at h
  split at h
  · exact Or.inr h
  · rcases List.mem_append.mp h with h | h
    · exact Or.inr h
    · exact Or.inl (List.mem_singleton.mp h)

theorem foldl_addToSet_nodup {α : Type} (cond : α → Prop) [DecidablePred cond]
    (name : α → Str) :
    ∀ (l : List α) (init : List Str), init.Nodup →
      (l.foldl (fun acc a => if cond a then addToSet acc (name a) else acc)
        init).Nodup := by
  intro l
  induction l with
  | nil => intro init h; exact h
  | cons a as ih =>
    intro init h
    rw [List.foldl_cons]
    apply ih
    split
    · exact addToSet_nodup init (name a) h
    · exact h

theorem mem_foldl_addToSet {α : Type} (cond : α → Prop) [DecidablePred cond]
    (name : α → Str) :
    ∀ (l : List α) (init : List Str) (x : Str),
      x ∈ l.foldl (fun acc a => if cond a then addToSet acc (name a) else acc) init →
      x ∈ init ∨ ∃ a ∈ l, cond a ∧ x = name a := by
  intro l
  induction l with
  | nil => intro init x h; exact Or.inl h
  | cons a as ih =>
    intro init x h
    rw [List.foldl_cons] at h
    rcases ih _ x h with h2 | ⟨b, hb, hcb, hxb⟩
    · by_cases hca : cond a
      · rw [if_pos hca] at h2
        rcases mem_addToSet h2 with rfl | h3
        · exact Or.inr ⟨a, List.mem_cons_self a as, hca, rfl⟩
        · exact Or.inl h3
      · rw [if_neg hca] at h2
        exact Or.inl h2
    · exact Or.inr ⟨b, List.mem_cons_of_mem a hb, hcb, hxb⟩

end GeoSearch

/-- C8: `getSuggestions` returns the empty sequence for queries shorter than
2 characters; for longer queries it returns a duplicate-free list of at most
`limit` names, each of whose lowercase form starts with the lowercase
query. -/
theorem claim_C8_getSuggestions (ds : GeoDataset) (q : Str) (limit : ℕ)
    (stype : String) :
    (q.length < 2 → GeoSearch.getSuggestions ds q limit stype = []) ∧
      (2 ≤ q.length →
        (GeoSearch.getSuggestions ds q limit stype).Nodup ∧
        (GeoSearch.getSuggestions ds q limit stype).length ≤ limit ∧
        ∀ name ∈ GeoSearch.getSuggestions ds q limit stype,
          jsToLower q <+: jsToLower name) := by
  constructor
  · intro h
    rw [GeoSearch.getSuggestions, if_pos h]
  · intro h
    simp only [GeoSearch.getSuggestions, if_neg (by omega : ¬ q.length < 2)]
    set s1 := (if stype = "all" ∨ stype = "district" then
        ds.districts.foldl (fun acc district =>
          if jsToLower q <+: jsToLower district.name then
            GeoSearch.addToSet acc district.name
          else acc) []
      else []) with hs1
    set s2 := (if stype = "all" ∨ stype = "postOffice" then
        ds.postOffices.foldl (fun acc po =>
          if jsToLower q <+: jsToLower po.name then
            GeoSearch.addToSet acc po.name
          else acc) s1
      else s1) with hs2
    have hs1nd : s1.Nodup := by
      rw [hs1]
      split
      · exact GeoSearch.foldl_addToSet_nodup _ _ _ _ List.nodup_nil
      · exact List.nodup_nil
    have hs2nd : s2.Nodup := by
      rw [hs2]
      split
      · exact GeoSearch.foldl_addToSet_nodup _ _ _ _ hs1nd
      · exact hs1nd
    have hs1mem : ∀ x ∈ s1, jsToLower q <+: jsToLower x := by
      intro x hx
      rw [hs1] at hx
      split at hx
      · rcases GeoSearch.mem_foldl_addToSet _ _ _ _ _ hx with h0 | ⟨d, _, hcd, rfl⟩
        · exact absurd h0 (List.not_mem_nil x)
        · exact hcd
      · exact absurd hx (List.not_mem_nil x)
    have hs2mem : ∀ x ∈ s2, jsToLower q <+: jsToLower x := by
      intro x hx
      rw [hs2] at hx
      split at hx
      · rcases GeoSearch.mem_foldl_addToSet _ _ _ _ _ hx with h0 | ⟨p, _, hcp, rfl⟩
        · exact hs1mem x h0
        · exact hcp
      · exact hs1mem x hx
    refine ⟨List.Nodup.sublist (List.take_sublist limit s2) hs2nd, ?_, ?_⟩
    · rw [List.length_take]
      omega
    · intro name hn
      exact hs2mem name (List.mem_of_mem_take hn)

/-- C8 witness at a concrete dataset and query. -/
theorem claim_C8_getSuggestions_witness :
    (GeoSearch.getSuggestions
        (NepalGeoData.processData
          [⟨"Kathmandu".data, "Kathmandu G.P.O.".data, "44600".data, "G.P.O.".data⟩,
           ⟨"Lalitpur".data, "Lalitpur D.P.O.".data, "44700".data, "D.P.O.".data⟩])
        "ka".data 5 "all").Nodup ∧
      (GeoSearch.getSuggestions
        (NepalGeoData.processData
          [⟨"Kathmandu".data, "Kathmandu G.P.O.".data, "44600".data, "G.P.O.".data⟩,
           ⟨"Lalitpur".data, "Lalitpur D.P.O.".data, "44700".data, "D.P.O.".data⟩])
        "ka".data 5 "all").length ≤ 5 ∧
      ∀ name ∈ GeoSearch.getSuggestions
        (NepalGeoData.processData
          [⟨"Kathmandu".data, "Kathmandu G.P.O.".data, "44600".data, "G.P.O.".data⟩,
           ⟨"Lalitpur".data, "Lalitpur D.P.O.".data, "44700".data, "D.P.O.".data⟩])
        "ka".data 5 "all", jsToLower "ka".data <+: jsToLower name :=
  (claim_C8_getSuggestions _ "ka".data 5 "all").2 (by decide)

/-- C5: for every district `D` of the dataset (whose stored name, like every
real district name, survives the query normalization: no outer whitespace
and no interior space in its lowercase form) that is the unique district
with its lowercase name, searching the exact string `D.name` with scope
`'district'` returns a non-empty list whose first element is named `D.name`
with matchType `exact` and relevance 100. -/
theorem claim_C5_district_exact_top (ds : GeoDataset) (D : District)
    (hD : D ∈ ds.districts)
    (hself : jsToLower D.name = jsToLower (jsTrim (jsToLower D.name)))
    (hnospace : ' ' ∉ jsToLower (jsTrim (jsToLower D.name)))
    (huniq : ∀ E ∈ ds.districts,
      jsToLower E.name = jsToLower (jsTrim (jsToLower D.name)) → E.name = D.name) :
    (GeoSearch.searchDistricts ds D.name 5).head? =
      some ⟨"district", D.name, none, none, 100, some "exact"⟩ := by
  have h100 : NepalGeoData.calculateRelevance D.name (jsTrim (jsToLower D.name)) = 100 :=
    NepalGeoData.calculateRelevance_eq_100 hself
  have hmemD : (⟨"district", D.name, none, none,
      NepalGeoData.calculateRelevance D.name (jsTrim (jsToLower D.name)), none⟩ : SearchResult)
      ∈ NepalGeoData.search ds D.name "district" :=
    NepalGeoData.search_district_mem hD (by omega)
  have hpw := NepalGeoData.search_pairwise ds D.name "district"
  cases hsearch : NepalGeoData.search ds D.name "district" with
  | nil =>
    rw [hsearch] at hmemD
    exact absurd hmemD (List.not_mem_nil _)
  | cons h0 t =>
    have hh0mem : h0 ∈ NepalGeoData.search ds D.name "district" := by
      rw [hsearch]; exact List.mem_cons_self _ _
    obtain ⟨h0rel20, E, hE, hh0⟩ := NepalGeoData.mem_search_district hh0mem
    rw [hsearch] at hmemD hpw
    rw [List.pairwise_cons] at hpw
    have h0ge : 100 ≤ h0.relevance := by
      rcases List.mem_cons.mp hmemD with heq | hmem
      · rw [← heq, h100]
      · have := hpw.1 _ hmem
        simpa [h100] using this
    have hEeq : jsToLower E.name = jsToLower (jsTrim (jsToLower D.name)) := by
      by_contra hne
      have h80 := NepalGeoData.calculateRelevance_le_80 hnospace hne
      rw [hh0] at h0ge
      simp only at h0ge
      omega
    have hEname : E.name = D.name := huniq E hE hEeq
    have hErel : NepalGeoData.calculateRelevance E.name (jsTrim (jsToLower D.name)) = 100 :=
      NepalGeoData.calculateRelevance_eq_100 hEeq
    have hh0' : h0 = ⟨"district", D.name, none, none, 100, none⟩ := by
      rw [hh0, hEname, h100]
    simp only [GeoSearch.searchDistricts]
    rw [hsearch, List.take_succ_cons, List.map_cons, List.head?_cons, hh0']
    rw [GeoSearch.determineMatchType_eq_exact D.name _ rfl]

/-- C5 witness at a concrete two-district dataset. -/
theorem claim_C5_district_exact_top_witness :
    (GeoSearch.searchDistricts
        (NepalGeoData.processData
          [⟨"Kathmandu".data, "Kathmandu G.P.O.".data, "44600".data, "G.P.O.".data⟩,
           ⟨"Lalitpur".data, "Lalitpur D.P.O.".data, "44700".data, "D.P.O.".data⟩])
        "Kathmandu".data 5).head? =
      some ⟨"district", "Kathmandu".data, none, none, 100, some "exact"⟩ :=
  claim_C5_district_exact_top
    (NepalGeoData.processData
      [⟨"Kathmandu".data, "Kathmandu G.P.O.".data, "44600".data, "G.P.O.".data⟩,
       ⟨"Lalitpur".data, "Lalitpur D.P.O.".data, "44700".data, "D.P.O.".data⟩])
    ⟨"Kathmandu".data, 1,
      [⟨"Kathmandu G.P.O.".data, "44600".data, "G.P.O.".data, "Kathmandu".data⟩]⟩
    (by decide) (by decide) (by decide) (by decide)

/-- C9: the empty-string query gets relevance 80 against every non-empty
candidate (the empty string is a prefix of everything, rule 2), and
consequently `GeoSearch.searchDistricts` — which has no falsy-query guard —
returns `min limit #districts` results for the empty query (with the
default limit 5), each with relevance 80, rather than an empty list. -/
theorem claim_C9_empty_query (ds : GeoDataset)
    (hnames : ∀ D ∈ ds.districts, D.name ≠ []) :
    (∀ text : Str, text ≠ [] → NepalGeoData.calculateRelevance text [] = 80) ∧
      (GeoSearch.searchDistricts ds [] 5).length = min 5 ds.districts.length ∧
      ∀ r ∈ GeoSearch.searchDistricts ds [] 5, r.relevance = 80 := by
  have hmapAll : ∀ (l : List District), (∀ D ∈ l, D.name ≠ []) →
      l.filterMap (fun district =>
        if 0 < NepalGeoData.calculateRelevance district.name [] then
          some (⟨"district", district.name, none, none,
            NepalGeoData.calculateRelevance district.name [],
            none⟩ : SearchResult)
        else none) =
      l.map (fun district =>
        (⟨"district", district.name, none, none, 80, none⟩ : SearchResult)) := by
    intro l
    induction l with
    | nil => intro _; rfl
    | cons d l ih =>
      intro hl
      have hrel := NepalGeoData.calculateRelevance_empty_query
        (hl d (List.mem_cons_self d l))
      rw [List.filterMap_cons_some (b := ⟨"district", d.name, none, none, 80, none⟩)
        (by rw [hrel]; rw [if_pos (by norm_num : (0 : ℤ) < 80)])]
      rw [List.map_cons, ih (fun D hD => hl D (List.mem_cons_of_mem d hD))]
  have hsearch : NepalGeoData.search ds [] "district" =
      ds.districts.map (fun district =>
        (⟨"district", district.name, none, none, 80, none⟩ : SearchResult)) := by
    simp only [NepalGeoData.search, String.reduceEq, or_true, true_or, or_false,
      false_or, reduceIte, List.append_nil]
    rw [show jsTrim (jsToLower ([] : Str)) = ([] : Str) from rfl]
    rw [hmapAll ds.districts hnames]
    have hfil : List.filter (fun r : SearchResult => decide (20 < r.relevance))
        (ds.districts.map (fun district =>
          (⟨"district", district.name, none, none, 80, none⟩ : SearchResult))) =
        ds.districts.map (fun district =>
          (⟨"district", district.name, none, none, 80, none⟩ : SearchResult)) := by
      apply List.filter_eq_self.mpr
      intro x hx
      rw [List.mem_map] at hx
      obtain ⟨d, _, rfl⟩ := hx
      exact (by decide : decide ((20 : ℤ) < (80 : ℤ)) = true)
    rw [hfil]
    apply jsStableSortDesc_of_all_eq _ _ (80 : ℤ)
    intro x hx
    rw [List.mem_map] at hx
    obtain ⟨d, _, rfl⟩ := hx
    rfl
  refine ⟨fun text ht => NepalGeoData.calculateRelevance_empty_query ht, ?_, ?_⟩
  · simp only [GeoSearch.searchDistricts]
    rw [hsearch, List.length_map, List.length_take, List.length_map]
  · intro r hr
    simp only [GeoSearch.searchDistricts] at hr
    rw [hsearch] at hr
    rw [List.mem_map] at hr
    obtain ⟨r', hr', rfl⟩ := hr
    have hr'' : r' ∈ ds.districts.map (fun district =>
        (⟨"district", district.name, none, none, 80, none⟩ : SearchResult)) :=
      List.mem_of_mem_take hr'
    rw [List.mem_map] at hr''
    obtain ⟨d, _, rfl⟩ := hr''
    rfl

/-- C9 witness at a concrete dataset. -/
theorem claim_C9_empty_query_witness :
    (GeoSearch.searchDistricts
        (NepalGeoData.processData
          [⟨"Kathmandu".data, "Kathmandu G.P.O.".data, "44600".data, "G.P.O.".data⟩,
           ⟨"Lalitpur".data, "Lalitpur D.P.O.".data, "44700".data, "D.P.O.".data⟩])
        [] 5).length =
      min 5 (NepalGeoData.processData
          [⟨"Kathmandu".data, "Kathmandu G.P.O.".data, "44600".data, "G.P.O.".data⟩,
           ⟨"Lalitpur".data, "Lalitpur D.P.O.".data, "44700".data, "D.P.O.".data⟩]).districts.length ∧
      ∀ r ∈ GeoSearch.searchDistricts
        (NepalGeoData.processData
          [⟨"Kathmandu".data, "Kathmandu G.P.O.".data, "44600".data, "G.P.O.".data⟩,
           ⟨"Lalitpur".data, "Lalitpur D.P.O.".data, "44700".data, "D.P.O.".data⟩])
        [] 5, r.relevance = 80 :=
  (claim_C9_empty_query _ (by decide)).2

/-- Core of the fuzzy-band analysis, shared by the C6 theorem and its
counterexample: when rules 1–5 fail and the similarity exceeds 0.6, the
relevance is `Math.round(similarity * 50)`, which lies in `[30, 50]`. -/
theorem NepalGeoData.fuzzy_band_aux (text query : Str)
    (h1 : jsToLower text ≠ jsToLower query)
    (h2 : ¬ jsToLower query <+: jsToLower text)
    (h3 : ¬ jsToLower query <:+: jsToLower text)
    (h4 : NepalGeoData.abbrevHit (jsToLower text) (jsToLower query) = false)
    (h5 : NepalGeoData.reverseAbbrevHit (jsToLower text) (jsToLower query) = false)
    (h6 : NepalGeoData.acronymHit (jsToLower text) (jsToLower query) = false)
    (h7 : (3/5 : ℚ) <
      1 - (NepalGeoData.levenshteinDistance (jsToLower text) (jsToLower query) : ℚ) /
        ((max (jsToLower text).length (jsToLower query).length : ℕ) : ℚ)) :
    NepalGeoData.calculateRelevance text query =
      jsRound ((1 -
        (NepalGeoData.levenshteinDistance (jsToLower text) (jsToLower query) : ℚ) /
          ((max (jsToLower text).length (jsToLower query).length : ℕ) : ℚ)) * 50) ∧
      30 ≤ NepalGeoData.calculateRelevance text query ∧
      NepalGeoData.calculateRelevance text query ≤ 50 := by
  have hmax : ¬ max (jsToLower text).length (jsToLower query).length = 0 := by
    intro h0
    apply h1
    have ha : jsToLower text = [] := List.eq_nil_of_length_eq_zero (by omega)
    have hb : jsToLower query = [] := List.eq_nil_of_length_eq_zero (by omega)
    rw [ha, hb]
  have hdivpos : (0 : ℚ) ≤
      (NepalGeoData.levenshteinDistance (jsToLower text) (jsToLower query) : ℚ) /
        ((max (jsToLower text).length (jsToLower query).length : ℕ) : ℚ) := by
    positivity
  have hfz : NepalGeoData.calculateFuzzyScore (jsToLower text) (jsToLower query) =
      jsRound ((1 -
        (NepalGeoData.levenshteinDistance (jsToLower text) (jsToLower query) : ℚ) /
          ((max (jsToLower text).length (jsToLower query).length : ℕ) : ℚ)) * 50) := by
    simp only [NepalGeoData.calculateFuzzyScore, h4, h5, h6, Bool.false_eq_true, if_false]
    rw [if_neg hmax, if_pos h7]
  have h30 : (30 : ℤ) ≤ jsRound ((1 -
      (NepalGeoData.levenshteinDistance (jsToLower text) (jsToLower query) : ℚ) /
        ((max (jsToLower text).length (jsToLower query).length : ℕ) : ℚ)) * 50) :=
    le_jsRound (by push_cast; push_cast at h7; linarith)
  have h50 : jsRound ((1 -
      (NepalGeoData.levenshteinDistance (jsToLower text) (jsToLower query) : ℚ) /
        ((max (jsToLower text).length (jsToLower query).length : ℕ) : ℚ)) * 50) ≤ 50 :=
    jsRound_le (by push_cast; push_cast at hdivpos; linarith)
  have hrel : NepalGeoData.calculateRelevance text query =
      jsRound ((1 -
        (NepalGeoData.levenshteinDistance (jsToLower text) (jsToLower query) : ℚ) /
          ((max (jsToLower text).length (jsToLower query).length : ℕ) : ℚ)) * 50) := by
    simp only [NepalGeoData.calculateRelevance]
    rw [if_neg h1, if_neg h2, if_neg h3, hfz, if_pos (by omega : (0 : ℤ) <
      jsRound ((1 -
        (NepalGeoData.levenshteinDistance (jsToLower text) (jsToLower query) : ℚ) /
          ((max (jsToLower text).length (jsToLower query).length : ℕ) : ℚ)) * 50))]
  exact ⟨hrel, hrel ▸ h30, hrel ▸ h50⟩

/-- C6 (amended): when rules 1–5 of the cascade fail and the normalized
Levenshtein similarity (on the lower-cased strings, as the code computes it)
is strictly greater than 0.6, the relevance equals
`Math.round(similarity * 50)` and lies in the closed interval `[30, 50]`.
The original claim's half-open interval `(30, 50]` is false: similarities
just above 0.6 round down to exactly 30 (see `claim_C6_counterexample`). -/
theorem claim_C6_fuzzy_band (text query : Str)
    (h1 : jsToLower text ≠ jsToLower query)
    (h2 : ¬ jsToLower query <+: jsToLower text)
    (h3 : ¬ jsToLower query <:+: jsToLower text)
    (h4 : NepalGeoData.abbrevHit (jsToLower text) (jsToLower query) = false)
    (h5 : NepalGeoData.reverseAbbrevHit (jsToLower text) (jsToLower query) = false)
    (h6 : NepalGeoData.acronymHit (jsToLower text) (jsToLower query) = false)
    (h7 : (3/5 : ℚ) <
      1 - (NepalGeoData.levenshteinDistance (jsToLower text) (jsToLower query) : ℚ) /
        ((max (jsToLower text).length (jsToLower query).length : ℕ) : ℚ)) :
    NepalGeoData.calculateRelevance text query =
      jsRound ((1 -
        (NepalGeoData.levenshteinDistance (jsToLower text) (jsToLower query) : ℚ) /
          ((max (jsToLower text).length (jsToLower query).length : ℕ) : ℚ)) * 50) ∧
      30 ≤ NepalGeoData.calculateRelevance text query ∧
      NepalGeoData.calculateRelevance text query ≤ 50 :=
  NepalGeoData.fuzzy_band_aux text query h1 h2 h3 h4 h5 h6 h7

/-- C6 witness at concrete inputs: `"abcde"` vs `"abcdx"` has Levenshtein
distance 1, similarity `4/5 > 0.6`, and relevance `round(0.8 * 50) = 40`. -/
theorem claim_C6_fuzzy_band_witness :
    NepalGeoData.calculateRelevance "abcde".data "abcdx".data =
      jsRound ((1 -
        (NepalGeoData.levenshteinDistance (jsToLower "abcde".data) (jsToLower "abcdx".data) : ℚ) /
          ((max (jsToLower "abcde".data).length (jsToLower "abcdx".data).length : ℕ) : ℚ)) * 50) ∧
      30 ≤ NepalGeoData.calculateRelevance "abcde".data "abcdx".data ∧
      NepalGeoData.calculateRelevance "abcde".data "abcdx".data ≤ 50 := by
  have htl : jsToLower "abcde".data = "abcde".data := by decide
  have hql : jsToLower "abcdx".data = "abcdx".data := by decide
  have hlev : NepalGeoData.levenshteinDistance "abcde".data "abcdx".data = 1 := by
    rw [show ("abcde".data : Str) = "abcd".data ++ ['e'] by decide,
      show ("abcdx".data : Str) = "abcd".data ++ ['x'] by decide,
      NepalGeoData.levenshteinDistance_append_left]
    simpa using NepalGeoData.levenshteinDistance_replicate
      (show 'e' ≠ 'x' by decide) 1 1
  apply claim_C6_fuzzy_band "abcde".data "abcdx".data (by decide) (by decide)
    (by decide) (by decide) (by decide) (by decide)
  rw [htl, hql, hlev]
  norm_num

/-- C6 counterexample: for candidate text `a^23` and query `a^14 b^9`
(both length 23, Levenshtein distance 9), rules 1–5 fail,
`similarity = 14/23 ≈ 0.6087 > 0.6`, yet the score is
`Math.round(14/23 * 50) = Math.round(30.43...) = 30`, which is NOT in the
claimed half-open interval `(30, 50]`. -/
theorem claim_C6_counterexample :
    (3/5 : ℚ) <
      1 - (NepalGeoData.levenshteinDistance (List.replicate 23 'a')
            (List.replicate 14 'a' ++ List.replicate 9 'b') : ℚ) /
        ((max (List.replicate 23 'a' : Str).length
            (List.replicate 14 'a' ++ List.replicate 9 'b' : Str).length : ℕ) : ℚ) ∧
      NepalGeoData.calculateRelevance (List.replicate 23 'a')
        (List.replicate 14 'a' ++ List.replicate 9 'b') = 30 ∧
      ¬ 30 < NepalGeoData.calculateRelevance (List.replicate 23 'a')
        (List.replicate 14 'a' ++ List.replicate 9 'b') := by
  have hlev : NepalGeoData.levenshteinDistance (List.replicate 23 'a')
      (List.replicate 14 'a' ++ List.replicate 9 'b') = 9 := by
    rw [show (List.replicate 23 'a' : Str) =
        List.replicate 14 'a' ++ List.replicate 9 'a' by
      rw [← List.replicate_add]]
    rw [NepalGeoData.levenshteinDistance_append_left]
    simpa using NepalGeoData.levenshteinDistance_replicate
      (show 'a' ≠ 'b' by decide) 9 9
  have hlen1 : (List.replicate 23 'a' : Str).length = 23 := by
    simp
  have hlen2 : (List.replicate 14 'a' ++ List.replicate 9 'b' : Str).length = 23 := by
    simp
  have hround : jsRound ((1 - (9 : ℚ) / 23) * 50) = 30 := by
    rw [jsRound]
    rw [show ((1 - (9 : ℚ) / 23) * 50 + 1/2) = 1423/46 by norm_num]
    rw [show (30 : ℤ) = ⌊(1423/46 : ℚ)⌋ from by norm_num [Int.floor_eq_iff]]
  have hsim : (3/5 : ℚ) <
      1 - (NepalGeoData.levenshteinDistance (List.replicate 23 'a')
            (List.replicate 14 'a' ++ List.replicate 9 'b') : ℚ) /
        ((max (List.replicate 23 'a' : Str).length
            (List.replicate 14 'a' ++ List.replicate 9 'b' : Str).length : ℕ) : ℚ) := by
    rw [hlev, hlen1, hlen2]
    norm_num
  have htl : jsToLower (List.replicate 23 'a') = List.replicate 23 'a' := by decide
  have hql : jsToLower (List.replicate 14 'a' ++ List.replicate 9 'b') =
      List.replicate 14 'a' ++ List.replicate 9 'b' := by decide
  have hband := NepalGeoData.fuzzy_band_aux (List.replicate 23 'a')
    (List.replicate 14 'a' ++ List.replicate 9 'b')
    (by decide) (by decide) (by decide) (by decide) (by decide) (by decide)
    (by rw [htl, hql]; exact hsim)
  have h30 : NepalGeoData.calculateRelevance (List.replicate 23 'a')
      (List.replicate 14 'a' ++ List.replicate 9 'b') = 30 := by
    rw [hband.1, htl, hql, hlev, hlen1, hlen2]
    rw [show ((max 23 23 : ℕ) : ℚ) = 23 by norm_num,
      show ((9 : ℕ) : ℚ) = 9 by norm_num]
    exact hround
  exact ⟨hsim, h30, by omega⟩

/-- C7: The Validation Layer's similarity function is symmetric: for every
pair of strings `a` and `b`, `calculateSimilarity a b = calculateSimilarity b a`. -/
theorem claim_C7_calculateSimilarity_symm (a b : Str) :
    LocationValidator.calculateSimilarity a b =
      LocationValidator.calculateSimilarity b a := by
  simp only [LocationValidator.calculateSimilarity,
    NepalGeoData.levenshteinDistance_comm a b, Nat.max_comm a.length b.length]

/-- C7 witness at concrete inputs. -/
theorem claim_C7_calculateSimilarity_symm_witness :
    LocationValidator.calculateSimilarity "kathmandu".data "kavre".data =
      LocationValidator.calculateSimilarity "kavre".data "kathmandu".data :=
  claim_C7_calculateSimilarity_symm "kathmandu".data "kavre".data

/-- C10: For every pair of strings, the Validation Layer's similarity function
returns a value in `[0, 1]`, and it returns exactly 1 if and only if the two
strings are equal (including the case when both are empty). -/
theorem claim_C10_calculateSimilarity_range (a b : Str) :
    0 ≤ LocationValidator.calculateSimilarity a b ∧
      LocationValidator.calculateSimilarity a b ≤ 1 ∧
      (LocationValidator.calculateSimilarity a b = 1 ↔ a = b) := by
  unfold LocationValidator.calculateSimilarity
  by_cases h : max a.length b.length = 0
  · have ha : a = [] := by
      have := Nat.le_max_left a.length b.length
      exact List.eq_nil_of_length_eq_zero (by omega)
    have hb : b = [] := by
      have := Nat.le_max_right a.length b.length
      exact List.eq_nil_of_length_eq_zero (by omega)
    subst ha; subst hb
    norm_num
  · rw [if_neg h]
    have hd : NepalGeoData.levenshteinDistance a b ≤ max a.length b.length :=
      NepalGeoData.levenshteinDistance_le_max a b
    have hm : (0 : ℚ) < ((max a.length b.length : ℕ) : ℚ) :=
      Nat.cast_pos.mpr (Nat.pos_of_ne_zero h)
    refine ⟨?_, ?_, ?_⟩
    · apply div_nonneg _ hm.le
      have : (NepalGeoData.levenshteinDistance a b : ℚ) ≤
          ((max a.length b.length : ℕ) : ℚ) := Nat.cast_le.mpr hd
      linarith
    · rw [div_le_one hm]
      have : (0 : ℚ) ≤ (NepalGeoData.levenshteinDistance a b : ℚ) := by positivity
      linarith
    · rw [div_eq_one_iff_eq hm.ne']
      rw [sub_eq_self]
      rw [← NepalGeoData.levenshteinDistance_eq_zero_iff a b]
      exact_mod_cast Iff.rfl
